import Mathlib

/-!
Verification of the DNS-lookup extension core (src/src/lib.rs).

Shallow embedding: the external resolution capability (hickory
`Resolver`) is modelled as a structure of answer functions; the
lookup-protocol functions, the record-type codec, the batch invokes and
the hot-swappable administrative state are translated from the source.
`Option` on a resolver answer models `Ok lookup` / `Err e` of the
underlying library call; `Except String` keeps the error messages the
source builds with `format!`.
-/

deriving instance DecidableEq for Except

/-- An IPv4 address, as produced by the standard-library parser used by
`validate_ipv4` (each octet is in 0..=255, enforced by the parser). -/
structure Ipv4 where
  o1 : Nat
  o2 : Nat
  o3 : Nat
  o4 : Nat
deriving DecidableEq

/-- An IP address returned by `lookup_ip`: either IPv4 or IPv6 (the
latter kept abstract as its textual form, since the code only ever
pattern-matches `IpAddr::V4` and skips the rest). -/
inductive IpAddr where
  | v4 (ip : Ipv4)
  | v6 (text : String)
deriving DecidableEq

/-- The closed set of record kinds supported by `parse_record_type`. -/
inductive RecordType where
  | A | AAAA | CNAME | MX | NS | PTR | SOA | SRV | TXT | CAA
deriving DecidableEq

/-- Display of a record type, as interpolated into error messages. -/
def RecordType.toText : RecordType → String
  | .A => "A"
  | .AAAA => "AAAA"
  | .CNAME => "CNAME"
  | .MX => "MX"
  | .NS => "NS"
  | .PTR => "PTR"
  | .SOA => "SOA"
  | .SRV => "SRV"
  | .TXT => "TXT"
  | .CAA => "CAA"

/-- The external ResolverHandle capability: given a query it either
errors (`none`, modelling `Err e`) or returns the ordered answer set
(`some l`, modelling `Ok lookup`; the list may be empty).
`reverseLookup` yields hostname strings (`name.to_string()`),
`lookupIp` yields IP addresses, `lookup` yields the textual record data
(`record.data().to_string()`). -/
structure Resolver where
  reverseLookup : Ipv4 → Option (List String)
  lookupIp : String → Option (List IpAddr)
  lookup : String → RecordType → Option (List String)

/-- ASCII-level model of Rust `str::trim`: drop whitespace from both
ends. -/
def strTrim (s : String) : String :=
  String.mk (((s.data.dropWhile Char.isWhitespace).reverse.dropWhile
    Char.isWhitespace).reverse)

/-- Model of Rust `str::to_uppercase` on the record-type alphabet:
character-wise upper-casing. -/
def strUpcase (s : String) : String :=
  String.mk (s.data.map Char.toUpper)

/-- Model of Rust `trim_end_matches('.')` as used on the first reverse
hostname: repeatedly removes trailing `'.'` characters. -/
def trimTrailingDots (s : String) : String :=
  String.mk ((s.data.reverse.dropWhile (fun c => c = '.')).reverse)

/-- Splits a character list on `'.'` separators (model of
`str::split('.')` used by the standard IPv4 parser). -/
def splitOnDot : List Char → List (List Char)
  | [] => [[]]
  | c :: rest =>
    let r := splitOnDot rest
    if c = '.' then [] :: r
    else
      match r with
      | [] => [[c]]
      | h :: t => (c :: h) :: t

/-- One decimal octet of an IPv4 literal: non-empty, at most three
digits, no leading zero (the standard parser rejects `01`), value of
the digit string. -/
def parseOctet (cs : List Char) : Option Nat :=
  match cs with
  | [] => none
  | c :: rest =>
    if (c :: rest).length > 3 then none
    else if c = '0' ∧ rest ≠ [] then none
    else if (c :: rest).all Char.isDigit then
      some ((c :: rest).foldl (fun acc d => acc * 10 + (d.toNat - 48)) 0)
    else none

/-- Model of `Ipv4Addr::from_str`: exactly four octets separated by
dots, each parsed by `parseOctet` and at most 255. -/
def ipv4FromString (s : String) : Option Ipv4 :=
  match splitOnDot s.data with
  | [a, b, c, d] =>
    match parseOctet a, parseOctet b, parseOctet c, parseOctet d with
    | some na, some nb, some nc, some nd =>
      if na ≤ 255 ∧ nb ≤ 255 ∧ nc ≤ 255 ∧ nd ≤ 255 then
        some ⟨na, nb, nc, nd⟩
      else none
    | _, _, _, _ => none
  | _ => none

/-- `validate_ipv4` (lib.rs:160): trims the input, parses it as IPv4,
and on failure reports the ORIGINAL (untrimmed) string in the
message. -/
def validate_ipv4 (ip_str : String) : Except String Ipv4 :=
  match ipv4FromString (strTrim ip_str) with
  | some addr => .ok addr
  | none => .error ("Invalid IPv4 address format: " ++ ip_str)

/-- Textual form of an IPv4 address (`Ipv4Addr::to_string`). -/
def ipv4ToText (ip : Ipv4) : String :=
  toString ip.o1 ++ "." ++ toString ip.o2 ++ "." ++ toString ip.o3 ++
    "." ++ toString ip.o4

/-- `reverse_dns_lookup_async` (lib.rs:176): validate the IPv4 text,
ask the resolver for the reverse name, take the FIRST hostname and
strip trailing root-label dots with `trim_end_matches('.')`; empty
answer set and resolver error are both `Err`.  The `resolver` argument
is the value obtained from `resolver.load()` inside this function. -/
def reverse_dns_lookup_async (resolver : Resolver) (ip_str : String) :
    Except String String :=
  match validate_ipv4 ip_str with
  | .error e => .error e
  | .ok ipv4 =>
    match resolver.reverseLookup ipv4 with
    | some lookup =>
      match lookup.head? with
      | some name => .ok (trimTrailingDots name)
      | none => .error "No hostname found for IP address"
    | none => .error "Reverse DNS lookup failed"

/-- First IPv4 address in a `lookup_ip` answer set, scanning in
resolver-returned order and skipping non-IPv4 entries. -/
def firstV4 : List IpAddr → Option Ipv4
  | [] => none
  | .v4 ip :: _ => some ip
  | .v6 _ :: rest => firstV4 rest

/-- All IPv4 addresses of a `lookup_ip` answer set, in order. -/
def allV4 (l : List IpAddr) : List Ipv4 :=
  l.filterMap (fun ip =>
    match ip with
    | .v4 ipv4 => some ipv4
    | .v6 _ => none)

/-- `dns_lookup_async` (lib.rs:208): trim the hostname, `lookup_ip`,
return the first IPv4 address; `Err` if none is found or the resolver
errors. -/
def dns_lookup_async (resolver : Resolver) (hostname : String) :
    Except String String :=
  match resolver.lookupIp (strTrim hostname) with
  | some lookup =>
    match firstV4 lookup with
    | some ipv4 => .ok (ipv4ToText ipv4)
    | none => .error "No IPv4 addresses found for hostname"
  | none => .error "DNS lookup failed"

/-- `dns_lookup_all_async` (lib.rs:240): trim the hostname,
`lookup_ip`, keep every IPv4 address in order; `Err` when the filtered
list is empty or the resolver errors. -/
def dns_lookup_all_async (resolver : Resolver) (hostname : String) :
    Except String (List String) :=
  match resolver.lookupIp (strTrim hostname) with
  | some lookup =>
    if ((allV4 lookup).map ipv4ToText).isEmpty then
      .error "No IPv4 addresses found for hostname"
    else .ok ((allV4 lookup).map ipv4ToText)
  | none => .error "DNS lookup failed"

/-- `parse_record_type` (lib.rs:284): trim, upper-case, exact match
against the ten supported kinds; the failure message echoes the
ORIGINAL text. -/
def parse_record_type (record_type_str : String) :
    Except String RecordType :=
  match strUpcase (strTrim record_type_str) with
  | "A" => .ok RecordType.A
  | "AAAA" => .ok RecordType.AAAA
  | "CNAME" => .ok RecordType.CNAME
  | "MX" => .ok RecordType.MX
  | "NS" => .ok RecordType.NS
  | "PTR" => .ok RecordType.PTR
  | "SOA" => .ok RecordType.SOA
  | "SRV" => .ok RecordType.SRV
  | "TXT" => .ok RecordType.TXT
  | "CAA" => .ok RecordType.CAA
  | _ => .error ("Unsupported record type: " ++ record_type_str)

/-- `dns_lookup_with_type_async` (lib.rs:312): trim, typed lookup,
first record's text; `Err` when the answer set is empty or the
resolver errors. -/
def dns_lookup_with_type_async (resolver : Resolver) (hostname : String)
    (record_type : RecordType) : Except String String :=
  match resolver.lookup (strTrim hostname) record_type with
  | some lookup =>
    match lookup.head? with
    | some record => .ok record
    | none =>
      .error ("No " ++ record_type.toText ++ " records found for hostname")
  | none => .error "DNS lookup failed"

/-- `dns_lookup_all_with_type_async` (lib.rs:344): trim, typed lookup,
all record texts in order; `Err` when the answer set is empty or the
resolver errors. -/
def dns_lookup_all_with_type_async (resolver : Resolver)
    (hostname : String) (record_type : RecordType) :
    Except String (List String) :=
  match resolver.lookup (strTrim hostname) record_type with
  | some lookup =>
    if lookup.isEmpty then
      .error ("No " ++ record_type.toText ++ " records found for hostname")
    else .ok lookup
  | none => .error "DNS lookup failed"

/-- A counting semaphore instance (`tokio::sync::Semaphore`).  `id`
distinguishes distinct instances: every `Semaphore::new` in the source
creates a brand-new object, modelled by minting a fresh id. -/
structure Semaphore where
  id : Nat
  permits : Nat
deriving DecidableEq

/-- A DNS preset configuration (`ResolverConfig::default/google/...`). -/
inductive ResolverConfig where
  | systemDefault | google | cloudflare | quad9
deriving DecidableEq

/-- What a `Resolver::builder_with_config(config).with_options(opts)`
call is given: the preset configuration and the `opts.cache_size`
capacity.  This is the constructor-level view of a ResolverHandle. -/
structure ResolverDesc where
  config : ResolverConfig
  cacheSize : Nat
deriving DecidableEq

/-- The hot-swappable global state `DnsResolverState` (lib.rs:38):
current resolver (constructor-level view), current concurrency
semaphore, and the stored cache-size preference.  `nextId` mints fresh
semaphore identities.  The Tokio runtime carries no observable data
and is not modelled. -/
structure DnsResolverState where
  resolver : ResolverDesc
  concurrency_semaphore : Semaphore
  cache_size : Nat
  nextId : Nat
deriving DecidableEq

/-- `DnsResolverState::default` (lib.rs:47): default preset, cache size
4096, a semaphore with 50 permits. -/
def DnsResolverState.mkDefault : DnsResolverState :=
  { resolver := { config := ResolverConfig.systemDefault, cacheSize := 4096 }
    concurrency_semaphore := { id := 0, permits := 50 }
    cache_size := 4096
    nextId := 1 }

/-- `DnsResolverState::update_config` (lib.rs:89): rebuilds the
resolver from the given config and the STORED cache-size preference,
then atomically publishes it; always `Ok` (construction is
infallible here, as in the source's use). -/
def DnsResolverState.update_config (st : DnsResolverState)
    (config : ResolverConfig) : DnsResolverState :=
  { st with resolver := { config := config, cacheSize := st.cache_size } }

/-- `DnsResolverState::set_dns_concurrency_limit` (lib.rs:111): rejects
limit 0, otherwise publishes a brand-new semaphore with `limit`
permits. -/
def DnsResolverState.set_dns_concurrency_limit (st : DnsResolverState)
    (limit : Nat) : Except String DnsResolverState :=
  if limit = 0 then .error "Concurrency limit must be greater than 0"
  else .ok { st with
    concurrency_semaphore := { id := st.nextId, permits := limit }
    nextId := st.nextId + 1 }

/-- `DnsResolverState::set_dns_cache_size` (lib.rs:126): rejects size
0, otherwise stores the preference and rebuilds the resolver with the
CURRENT config and the new cache capacity. -/
def DnsResolverState.set_dns_cache_size (st : DnsResolverState)
    (size : Nat) : Except String DnsResolverState :=
  if size = 0 then .error "Cache size must be greater than 0"
  else .ok { st with
    cache_size := size
    resolver := { config := st.resolver.config, cacheSize := size } }

/-- The environment a batch invoke runs in: the history of values held
by the two `ArcSwap` cells of `GLOBAL_DNS_STATE`.  `semAt t` is the
semaphore `concurrency_semaphore.load()` returns at load-time `t`; the
invoke performs exactly one such load, before the task loop, at time 0.
`resolverAt i` is the resolver that `resolver.load()` returns when the
task for row `i` executes it (the source passes the `ArcSwap` cell into
each task and every lookup function loads it itself). -/
structure BatchEnv where
  resolverAt : Nat → Resolver
  semAt : Nat → Semaphore

/-- Observable effects of one row's task: which semaphore instances it
acquired a permit from, and how many resolver (network) calls it
issued. -/
structure TaskTrace where
  permitsAcquired : List Semaphore
  resolverCalls : Nat
deriving DecidableEq

/-- One row of `ReverseDnsLookup::invoke` (lib.rs:419): a null row
short-circuits to null with no permit and no resolver contact;
otherwise the task acquires a permit from the snapshot semaphore and
runs `reverse_dns_lookup_async`, whose single resolver call happens
exactly when IPv4 validation succeeds.  `Result::ok()` collapses
errors to null. -/
def reverseTask (resolver : Resolver) (sem : Semaphore)
    (row : Option String) : Option String × TaskTrace :=
  match row with
  | none => (none, { permitsAcquired := [], resolverCalls := 0 })
  | some ip_address =>
    ((reverse_dns_lookup_async resolver ip_address).toOption,
     { permitsAcquired := [sem]
       resolverCalls := if (validate_ipv4 ip_address).isOk then 1 else 0 })

/-- The per-row dispatch of `DnsLookup::invoke` (lib.rs:545): with a
record-type string, parse it and do a typed lookup (a parse failure is
an error BEFORE any resolver contact); without one, do the default
first-IPv4 lookup. -/
def forwardRowLookup (resolver : Resolver) (hostname : String)
    (record_type_opt : Option String) : Except String String :=
  match record_type_opt with
  | some record_type_str =>
    match parse_record_type record_type_str with
    | .ok record_type =>
      dns_lookup_with_type_async resolver hostname record_type
    | .error e => .error e
  | none => dns_lookup_async resolver hostname

/-- Number of resolver calls `forwardRowLookup` makes: one, except
that a record-type parse failure stops before the resolver. -/
def forwardRowCalls (record_type_opt : Option String) : Nat :=
  match record_type_opt with
  | some record_type_str =>
    if (parse_record_type record_type_str).isOk then 1 else 0
  | none => 1

/-- One row of `DnsLookup::invoke` (lib.rs:540). -/
def dnsTask (resolver : Resolver) (sem : Semaphore)
    (row : Option String) (record_type_opt : Option String) :
    Option String × TaskTrace :=
  match row with
  | none => (none, { permitsAcquired := [], resolverCalls := 0 })
  | some hostname =>
    ((forwardRowLookup resolver hostname record_type_opt).toOption,
     { permitsAcquired := [sem]
       resolverCalls := forwardRowCalls record_type_opt })

/-- The per-row dispatch of `DnsLookupAll::invoke` (lib.rs:684). -/
def forwardAllRowLookup (resolver : Resolver) (hostname : String)
    (record_type_opt : Option String) : Except String (List String) :=
  match record_type_opt with
  | some record_type_str =>
    match parse_record_type record_type_str with
    | .ok record_type =>
      dns_lookup_all_with_type_async resolver hostname record_type
    | .error e => .error e
  | none => dns_lookup_all_async resolver hostname

/-- One row of `DnsLookupAll::invoke` (lib.rs:679). -/
def dnsAllTask (resolver : Resolver) (sem : Semaphore)
    (row : Option String) (record_type_opt : Option String) :
    Option (List String) × TaskTrace :=
  match row with
  | none => (none, { permitsAcquired := [], resolverCalls := 0 })
  | some hostname =>
    ((forwardAllRowLookup resolver hostname record_type_opt).toOption,
     { permitsAcquired := [sem]
       resolverCalls := forwardRowCalls record_type_opt })

/-- The record-type argument reaching row `i`:
`record_types.as_ref().and_then(|rt| rt[i].clone())` (lib.rs:538) —
`none` when the batch has no second column. -/
def recordTypeAt (record_types : Option (List (Option String)))
    (i : Nat) : Option String :=
  match record_types with
  | none => none
  | some rt => (rt.getD i none)

/-- `ReverseDnsLookup::invoke` (lib.rs:391): load the semaphore once
before the loop, launch one task per row (each loading the resolver
itself when it runs), join all, and write results positionally.  The
second component collects the per-row effect traces. -/
def ReverseDnsLookup.invoke (env : BatchEnv)
    (rows : List (Option String)) :
    List (Option String) × List TaskTrace :=
  (((List.range rows.length).map
      (fun i => reverseTask (env.resolverAt i) (env.semAt 0)
        (rows.getD i none))).map Prod.fst,
   ((List.range rows.length).map
      (fun i => reverseTask (env.resolverAt i) (env.semAt 0)
        (rows.getD i none))).map Prod.snd)

/-- `DnsLookup::invoke` (lib.rs:488), same batch structure with an
optional record-type column. -/
def DnsLookup.invoke (env : BatchEnv) (rows : List (Option String))
    (record_types : Option (List (Option String))) :
    List (Option String) × List TaskTrace :=
  (((List.range rows.length).map
      (fun i => dnsTask (env.resolverAt i) (env.semAt 0)
        (rows.getD i none) (recordTypeAt record_types i))).map Prod.fst,
   ((List.range rows.length).map
      (fun i => dnsTask (env.resolverAt i) (env.semAt 0)
        (rows.getD i none) (recordTypeAt record_types i))).map Prod.snd)

/-- `DnsLookupAll::invoke` (lib.rs:627), list-valued results. -/
def DnsLookupAll.invoke (env : BatchEnv) (rows : List (Option String))
    (record_types : Option (List (Option String))) :
    List (Option (List String)) × List TaskTrace :=
  (((List.range rows.length).map
      (fun i => dnsAllTask (env.resolverAt i) (env.semAt 0)
        (rows.getD i none) (recordTypeAt record_types i))).map
     Prod.fst,
   ((List.range rows.length).map
      (fun i => dnsAllTask (env.resolverAt i) (env.semAt 0)
        (rows.getD i none) (recordTypeAt record_types i))).map
     Prod.snd)

/-- `SetConcurrencyLimit::invoke` (lib.rs:872): a sequential row loop;
null rows give null, non-positive limits write the guard message and
leave the state alone, positive limits publish a new semaphore.  The
input is `i64`. -/
def SetConcurrencyLimit.invoke (st : DnsResolverState)
    (rows : List (Option Int)) :
    List (Option String) × DnsResolverState :=
  rows.foldl
    (fun acc v =>
      match v with
      | none => (acc.1 ++ [none], acc.2)
      | some limit =>
        if limit ≤ 0 then
          (acc.1 ++ [some "Concurrency limit must be greater than 0"], acc.2)
        else
          match acc.2.set_dns_concurrency_limit limit.toNat with
          | .ok st2 =>
            (acc.1 ++ [some ("Concurrency limit updated to " ++ toString limit)],
             st2)
          | .error e =>
            (acc.1 ++ [some ("Failed to update concurrency limit: " ++ e)],
             acc.2))
    ([], st)

/-- How a constructed resolver behaves on the network: the external
world, mapping the constructor-level view of a handle to its answer
functions.  Used to relate the administrative layer to the lookup
layer. -/
def ResolverWorld : Type := ResolverDesc → Resolver

/-- `CoreyBindData` (lib.rs:1037): the hostname, the TXT records
fetched at bind time, and the private resolver state the bind
created. -/
structure CoreyBindData where
  hostname : String
  txt_records : List String
  resolver_state : DnsResolverState

/-- `Corey::bind` (lib.rs:1055): creates a brand-new
`DnsResolverState` via `DnsResolverState::new()` (the default state),
performs ONE TXT lookup on that private state's resolver — never
touching `globalState` and never acquiring any admission permit — and
stores the records eagerly.  A lookup error fails the bind. -/
def Corey.bind (world : ResolverWorld) (globalState : DnsResolverState)
    (hostname : String) : Except String CoreyBindData :=
  match (world DnsResolverState.mkDefault.resolver).lookup
      (strTrim hostname) RecordType.TXT with
  | some lookup =>
    .ok { hostname := hostname, txt_records := lookup
          resolver_state := DnsResolverState.mkDefault }
  | none => .error "TXT lookup failed"

/-- `Corey::func` (lib.rs:1094): given the current offset, emits the
next chunk of at most 2048 records and the updated offset; after
exhaustion it emits zero rows and leaves the offset unchanged. -/
def Corey.func (bind_data : CoreyBindData) (offset : Nat) :
    List String × Nat :=
  if bind_data.txt_records.length - offset = 0 then ([], offset)
  else
    ((bind_data.txt_records.drop offset).take
        (min (bind_data.txt_records.length - offset) 2048),
     offset + min (bind_data.txt_records.length - offset) 2048)

/-- Iterating `Corey.func` the way the host calls a table function:
collect chunks until one comes back empty (fuel bounds the
iteration). -/
def Corey.runChunks (bind_data : CoreyBindData) (offset : Nat) :
    Nat → List String
  | 0 => []
  | fuel + 1 =>
    if (Corey.func bind_data offset).1 = [] then []
    else (Corey.func bind_data offset).1 ++
      Corey.runChunks bind_data (Corey.func bind_data offset).2 fuel

/-- Modelled from the spec (§4.4): removing "a single trailing
root-label terminator ('.') if present" — the claim's wording, to be
compared against the source's `trim_end_matches('.')`. -/
def spec_stripRootDot (s : String) : String :=
  match s.data.reverse with
  | c :: rest => if c = '.' then String.mk rest.reverse else s
  | [] => s

/-- True when the string ends in at least two '.' characters — the
shapes a DNS presentation name (one root-label terminator at most)
never takes. -/
def hasDoubleDotTail (s : String) : Bool :=
  match s.data.reverse with
  | c1 :: c2 :: _ => if c1 = '.' ∧ c2 = '.' then true else false
  | _ => false

/-- A resolver that fails every query; concrete test fixtures override
single fields. -/
def emptyResolver : Resolver :=
  { reverseLookup := fun _ => none
    lookupIp := fun _ => none
    lookup := fun _ _ => none }

/-- Fixture: answers every reverse query with `host-a.`. -/
def resolverA : Resolver :=
  { emptyResolver with reverseLookup := fun _ => some ["host-a."] }

/-- Fixture: answers every reverse query with `host-b.`. -/
def resolverB : Resolver :=
  { emptyResolver with reverseLookup := fun _ => some ["host-b."] }

/-- Fixture environment: the resolver cell holds `resolverA`
throughout the batch. -/
def envStable : BatchEnv :=
  { resolverAt := fun _ => resolverA
    semAt := fun _ => { id := 0, permits := 50 } }

/-- Fixture environment: identical to `envStable` at batch start
(time 0), but an administrative swap publishes `resolverB` before the
task of row 1 performs its load. -/
def envSwapped : BatchEnv :=
  { resolverAt := fun i => if i = 0 then resolverA else resolverB
    semAt := fun _ => { id := 0, permits := 50 } }

/-- Fixture batch: two identical non-null reverse queries. -/
def twoRows : List (Option String) := [some "1.1.1.1", some "1.1.1.1"]

/-- Fixture environment: agrees with `envStable` on the resolver
history and on the semaphore loaded at batch start, but an
administrative call publishes a different semaphore after the batch's
single load. -/
def envSemSwapped : BatchEnv :=
  { resolverAt := fun _ => resolverA
    semAt := fun t =>
      if t = 0 then { id := 0, permits := 50 }
      else { id := 9, permits := 1 } }

/-- Fixture: resolver answering reverse queries for 8.8.8.8 with
`dns.google.` and everything else with an empty answer set. -/
def googleResolver : Resolver :=
  { emptyResolver with
    reverseLookup := fun ip =>
      if ip = ⟨8, 8, 8, 8⟩ then some ["dns.google."] else some [] }

/-- Fixture: a world in which every constructed handle answers TXT
queries for any hostname with three records. -/
def txtWorld : ResolverWorld := fun _ =>
  { emptyResolver with lookup := fun _ _ => some ["t1", "t2", "t3"] }

/-- Fixture bind data with three TXT records. -/
def txtBindData : CoreyBindData :=
  { hostname := "example.com"
    txt_records := ["t1", "t2", "t3"]
    resolver_state := DnsResolverState.mkDefault }

theorem trimTrailingDots_eq_spec (s : String)
    (h : hasDoubleDotTail s = false) :
    trimTrailingDots s = spec_stripRootDot s := by
  obtain ⟨d⟩ := s
  unfold trimTrailingDots spec_stripRootDot hasDoubleDotTail at *
  simp only [String.data] at *
  cases hrev : d.reverse with
  | nil =>
    have hd : d = [] := by
      have := congrArg List.reverse hrev
      simpa using this
    subst hd
    simp
  | cons c rest =>
    rw [hrev] at h
    have hd : d = (c :: rest).reverse := by
      have := congrArg List.reverse hrev
      simpa using this
    by_cases hc : c = '.'
    · subst hc
      cases rest with
      | nil => simp
      | cons c2 rest2 =>
        by_cases hc2 : c2 = '.'
        · subst hc2; simp at h
        · simp [List.dropWhile, hc2]
    · simp [List.dropWhile, hc, hd]

/-- Claim C5: `parse_record_type` trims its input and matches
case-insensitively against exactly the ten supported kinds — "txt",
"TXT" and " Txt " all parse to the same `RecordType`, any text whose
trimmed upper-casing is outside the closed set fails, and the failure
message carries the original text exactly as supplied (untrimmed,
original case). -/
theorem C5_parse_record_type_closed_set :
    (parse_record_type "txt" = .ok RecordType.TXT ∧
     parse_record_type "TXT" = .ok RecordType.TXT ∧
     parse_record_type " Txt " = .ok RecordType.TXT) ∧
    (∀ s : String, (parse_record_type s).isOk = true ↔
      strUpcase (strTrim s) ∈
        (["A", "AAAA", "CNAME", "MX", "NS", "PTR", "SOA", "SRV", "TXT",
          "CAA"] : List String)) ∧
    (∀ s m, parse_record_type s = .error m →
      m = "Unsupported record type: " ++ s) := by
  refine ⟨⟨by decide, by decide, by decide⟩, ?_, ?_⟩
  · intro s
    unfold parse_record_type
    split <;> simp_all [Except.isOk, Except.toBool]
  · intro s m h
    unfold parse_record_type at h
    split at h <;> simp_all

/-- Witness for C5: concrete inputs discharging both quantified parts
of the theorem — "ZZZ" is outside the closed set, and its failure
message is the untrimmed original text. -/
theorem C5_parse_record_type_witness :
    ((parse_record_type "ZZZ").isOk = true ↔
      strUpcase (strTrim "ZZZ") ∈
        (["A", "AAAA", "CNAME", "MX", "NS", "PTR", "SOA", "SRV", "TXT",
          "CAA"] : List String)) ∧
    "Unsupported record type: ZZZ" = "Unsupported record type: " ++ "ZZZ" :=
  ⟨C5_parse_record_type_closed_set.2.1 "ZZZ",
   C5_parse_record_type_closed_set.2.2 "ZZZ" "Unsupported record type: ZZZ"
     (by decide)⟩

/-- Claim C2: for a reverse lookup whose input parses as IPv4 and whose
answer set is non-empty, the result is the first returned hostname with
a single trailing root-label terminator removed if present (stated for
hostnames of DNS presentation shape, i.e. without a doubled trailing
dot, which is all the external `Name::to_string` produces — on those
the source's `trim_end_matches('.')` coincides with removing one
trailing dot); the lookup degrades to null when the answer set is empty
or the resolver errors, and a string that is not a valid IPv4 address
yields null. -/
theorem C2_reverse_first_hostname (r : Resolver) (s : String) :
    (∀ ip name rest, validate_ipv4 s = .ok ip →
      r.reverseLookup ip = some (name :: rest) →
      hasDoubleDotTail name = false →
      (reverse_dns_lookup_async r s).toOption =
        some (spec_stripRootDot name)) ∧
    (∀ ip, validate_ipv4 s = .ok ip → r.reverseLookup ip = some [] →
      (reverse_dns_lookup_async r s).toOption = none) ∧
    (∀ ip, validate_ipv4 s = .ok ip → r.reverseLookup ip = none →
      (reverse_dns_lookup_async r s).toOption = none) ∧
    ((validate_ipv4 s).isOk = false →
      (reverse_dns_lookup_async r s).toOption = none) := by
  refine ⟨?_, ?_, ?_, ?_⟩
  · intro ip name rest hv hl hdd
    simp [reverse_dns_lookup_async, hv, hl, Except.toOption,
      trimTrailingDots_eq_spec name hdd]
  · intro ip hv hl
    simp [reverse_dns_lookup_async, hv, hl, Except.toOption]
  · intro ip hv hl
    simp [reverse_dns_lookup_async, hv, hl, Except.toOption]
  · intro hv
    cases h : validate_ipv4 s with
    | ok ip => rw [h] at hv; simp [Except.isOk, Except.toBool] at hv
    | error e => simp [reverse_dns_lookup_async, h, Except.toOption]

/-- Witness for C2: against a resolver answering `8.8.8.8` with
`dns.google.`, the reverse lookup returns the hostname with the single
trailing dot removed; `not-an-ip` yields null. -/
theorem C2_reverse_first_hostname_witness :
    (reverse_dns_lookup_async googleResolver "8.8.8.8").toOption =
      some (spec_stripRootDot "dns.google.") ∧
    (reverse_dns_lookup_async googleResolver "not-an-ip").toOption =
      none ∧
    spec_stripRootDot "dns.google." = "dns.google" :=
  ⟨(C2_reverse_first_hostname googleResolver "8.8.8.8").1
      ⟨8, 8, 8, 8⟩ "dns.google." [] (by decide) (by decide) (by decide),
   (C2_reverse_first_hostname googleResolver "not-an-ip").2.2.2
      (by decide),
   by decide⟩

/-- Claim C6: a non-positive concurrency limit makes the operation
return (as its successful result value) the guard message containing
"must be greater than 0" and leaves the state — in particular the
admission semaphore — untouched; a positive limit publishes a
brand-new semaphore with exactly that many permits. -/
theorem C6_set_concurrency_limit (st : DnsResolverState) (n : Int) :
    (n ≤ 0 →
      SetConcurrencyLimit.invoke st [some n] =
        ([some "Concurrency limit must be greater than 0"], st) ∧
      ∃ pre post,
        "Concurrency limit must be greater than 0" =
          pre ++ "must be greater than 0" ++ post) ∧
    (0 < n →
      SetConcurrencyLimit.invoke st [some n] =
        ([some ("Concurrency limit updated to " ++ toString n)],
         { st with
           concurrency_semaphore := { id := st.nextId, permits := n.toNat }
           nextId := st.nextId + 1 }) ∧
      (n.toNat : Int) = n) := by
  constructor
  · intro hn
    refine ⟨?_, "Concurrency limit ", "", by decide⟩
    simp [SetConcurrencyLimit.invoke, hn]
  · intro hn
    have h1 : ¬ n ≤ 0 := by omega
    have h2 : ¬ n.toNat = 0 := by omega
    refine ⟨?_, by omega⟩
    simp [SetConcurrencyLimit.invoke,
      DnsResolverState.set_dns_concurrency_limit, h1, h2]

/-- Witness for C6: limit 0 is rejected with the state unchanged,
limit 7 publishes a semaphore with 7 permits, both starting from the
default state. -/
theorem C6_set_concurrency_limit_witness :
    (SetConcurrencyLimit.invoke DnsResolverState.mkDefault [some 0] =
      ([some "Concurrency limit must be greater than 0"],
       DnsResolverState.mkDefault)) ∧
    (SetConcurrencyLimit.invoke DnsResolverState.mkDefault [some 7]).2.concurrency_semaphore.permits = 7 :=
  ⟨((C6_set_concurrency_limit DnsResolverState.mkDefault 0).1
      (by omega)).1,
   by rw [((C6_set_concurrency_limit DnsResolverState.mkDefault 7).2
      (by omega)).1]; rfl⟩

theorem dns_lookup_all_async_ne_nil (r : Resolver) (hst : String)
    (l : List String) (hok : dns_lookup_all_async r hst = .ok l) :
    l ≠ [] := by
  unfold dns_lookup_all_async at hok
  split at hok
  · split at hok
    · simp_all
    · simp only [Except.ok.injEq] at hok
      subst hok
      simp_all [List.map_eq_nil_iff]
  · simp_all

theorem dns_lookup_all_with_type_ne_nil (r : Resolver) (hst : String)
    (t : RecordType) (l : List String)
    (hok : dns_lookup_all_with_type_async r hst t = .ok l) : l ≠ [] := by
  unfold dns_lookup_all_with_type_async at hok
  split at hok
  · split at hok <;> simp_all
  · simp_all

theorem forwardAllRowLookup_ne_nil (resolver : Resolver) (hst : String)
    (rtopt : Option String) (l : List String)
    (hok : forwardAllRowLookup resolver hst rtopt = .ok l) : l ≠ [] := by
  cases rtopt with
  | none =>
    simp only [forwardAllRowLookup] at hok
    exact dns_lookup_all_async_ne_nil resolver hst l hok
  | some rts =>
    simp only [forwardAllRowLookup] at hok
    cases hp : parse_record_type rts with
    | ok t =>
      rw [hp] at hok
      exact dns_lookup_all_with_type_ne_nil resolver hst t l hok
    | error e => rw [hp] at hok; simp at hok

theorem dnsAllTask_ne_nil (resolver : Resolver) (sem : Semaphore)
    (row : Option String) (rtopt : Option String) (l : List String)
    (h : (dnsAllTask resolver sem row rtopt).1 = some l) : l ≠ [] := by
  cases row with
  | none => simp [dnsAllTask] at h
  | some hst =>
    simp only [dnsAllTask] at h
    cases hfw : forwardAllRowLookup resolver hst rtopt with
    | ok l2 =>
      rw [hfw] at h
      simp [Except.toOption] at h
      subst h
      exact forwardAllRowLookup_ne_nil resolver hst rtopt _ hfw
    | error e => rw [hfw] at h; simp [Except.toOption] at h

theorem reverseInvoke_getElem (env : BatchEnv)
    (rows : List (Option String)) (i : Nat) (hi : i < rows.length) :
    (ReverseDnsLookup.invoke env rows).1[i]? =
      some (reverseTask (env.resolverAt i) (env.semAt 0)
        (rows.getD i none)).1 := by
  simp [ReverseDnsLookup.invoke, List.getElem?_map, List.getElem?_range,
    hi]

theorem reverseInvoke_getElem_trace (env : BatchEnv)
    (rows : List (Option String)) (i : Nat) (hi : i < rows.length) :
    (ReverseDnsLookup.invoke env rows).2[i]? =
      some (reverseTask (env.resolverAt i) (env.semAt 0)
        (rows.getD i none)).2 := by
  simp [ReverseDnsLookup.invoke, List.getElem?_map, List.getElem?_range,
    hi]

theorem dnsInvoke_getElem (env : BatchEnv) (rows : List (Option String))
    (record_types : Option (List (Option String))) (i : Nat)
    (hi : i < rows.length) :
    (DnsLookup.invoke env rows record_types).1[i]? =
      some (dnsTask (env.resolverAt i) (env.semAt 0) (rows.getD i none)
        (recordTypeAt record_types i)).1 := by
  simp [DnsLookup.invoke, List.getElem?_map, List.getElem?_range, hi]

theorem dnsInvoke_getElem_trace (env : BatchEnv)
    (rows : List (Option String))
    (record_types : Option (List (Option String))) (i : Nat)
    (hi : i < rows.length) :
    (DnsLookup.invoke env rows record_types).2[i]? =
      some (dnsTask (env.resolverAt i) (env.semAt 0) (rows.getD i none)
        (recordTypeAt record_types i)).2 := by
  simp [DnsLookup.invoke, List.getElem?_map, List.getElem?_range, hi]

theorem dnsAllInvoke_getElem (env : BatchEnv)
    (rows : List (Option String))
    (record_types : Option (List (Option String))) (i : Nat)
    (hi : i < rows.length) :
    (DnsLookupAll.invoke env rows record_types).1[i]? =
      some (dnsAllTask (env.resolverAt i) (env.semAt 0)
        (rows.getD i none) (recordTypeAt record_types i)).1 := by
  simp [DnsLookupAll.invoke, List.getElem?_map, List.getElem?_range, hi]

theorem dnsAllInvoke_getElem_trace (env : BatchEnv)
    (rows : List (Option String))
    (record_types : Option (List (Option String))) (i : Nat)
    (hi : i < rows.length) :
    (DnsLookupAll.invoke env rows record_types).2[i]? =
      some (dnsAllTask (env.resolverAt i) (env.semAt 0)
        (rows.getD i none) (recordTypeAt record_types i)).2 := by
  simp [DnsLookupAll.invoke, List.getElem?_map, List.getElem?_range, hi]

theorem dnsAllInvoke_getElem_none (env : BatchEnv)
    (rows : List (Option String))
    (record_types : Option (List (Option String))) (i : Nat)
    (hi : ¬ i < rows.length) :
    (DnsLookupAll.invoke env rows record_types).1[i]? = none := by
  simp [DnsLookupAll.invoke, List.getElem?_map, List.getElem?_range, hi]
  omega

/-- Claim C7: the forward-all lookups never produce an empty list — an
empty filtered answer set (no IPv4 addresses in the default case, no
records of the requested kind otherwise) is an error, which degrades
to null at the row level. -/
theorem C7_forward_all_never_empty (r : Resolver) (hostname : String)
    (rt : RecordType) :
    (∀ l, dns_lookup_all_async r hostname = .ok l → l ≠ []) ∧
    (∀ l, dns_lookup_all_with_type_async r hostname rt = .ok l →
      l ≠ []) ∧
    (∀ answers, r.lookupIp (strTrim hostname) = some answers →
      allV4 answers = [] →
      (dns_lookup_all_async r hostname).toOption = none) ∧
    (r.lookup (strTrim hostname) rt = some [] →
      (dns_lookup_all_with_type_async r hostname rt).toOption = none) ∧
    (∀ (env : BatchEnv) (rows : List (Option String))
      (record_types : Option (List (Option String))) (i : Nat)
      (l : List String),
      (DnsLookupAll.invoke env rows record_types).1[i]? =
        some (some l) → l ≠ []) := by
  refine ⟨fun l hok => dns_lookup_all_async_ne_nil r hostname l hok,
    fun l hok => dns_lookup_all_with_type_ne_nil r hostname rt l hok,
    ?_, ?_, ?_⟩
  · intro answers hlookup hempty
    simp [dns_lookup_all_async, hlookup, hempty, Except.toOption]
  · intro hlookup
    simp [dns_lookup_all_with_type_async, hlookup, Except.toOption]
  · intro env rows record_types i l hget
    by_cases hi : i < rows.length
    · rw [dnsAllInvoke_getElem env rows record_types i hi] at hget
      exact dnsAllTask_ne_nil (env.resolverAt i) (env.semAt 0)
        (rows.getD i none) (recordTypeAt record_types i) l
        (by simpa using hget)
    · rw [dnsAllInvoke_getElem_none env rows record_types i hi] at hget
      exact absurd hget (by simp)

/-- Witness for C7: a host with an IPv6-only answer set produces null
in the default (IPv4) mode. -/
theorem C7_forward_all_never_empty_witness :
    (dns_lookup_all_async
      { emptyResolver with
        lookupIp := fun _ => some [IpAddr.v6 "2001:db8::1"] }
      "v6only.example").toOption = none :=
  (C7_forward_all_never_empty
    { emptyResolver with
      lookupIp := fun _ => some [IpAddr.v6 "2001:db8::1"] }
    "v6only.example" RecordType.A).2.2.1 [IpAddr.v6 "2001:db8::1"]
    (by decide) (by decide)

theorem foldl_update_config_frame (k : Nat) (cs : List ResolverConfig)
    (st : DnsResolverState) (h1 : st.cache_size = k)
    (h2 : st.resolver.cacheSize = k) :
    (cs.foldl DnsResolverState.update_config st).cache_size = k ∧
    (cs.foldl DnsResolverState.update_config st).resolver.cacheSize
      = k ∧
    (cs.foldl DnsResolverState.update_config st).concurrency_semaphore
      = st.concurrency_semaphore := by
  induction cs generalizing st with
  | nil => simp_all
  | cons c cs ih =>
    simp only [List.foldl_cons]
    exact ih (st.update_config c) h1 h1

/-- Claim C8: `update_config` (set-resolver-preset) rebuilds the
resolver from the new config and the STORED cache-size preference and
changes nothing else; hence after set-cache-size(k) followed by any
sequence of preset changes, the resolver in effect still has cache
capacity k, the stored preference is still k, and the admission
semaphore is untouched throughout. -/
theorem C8_preset_preserves_cache_size (st st2 : DnsResolverState)
    (c : ResolverConfig) (k : Nat) (cs : List ResolverConfig)
    (h : st.set_dns_cache_size k = .ok st2) :
    (st.update_config c).resolver =
      { config := c, cacheSize := st.cache_size } ∧
    (st.update_config c).cache_size = st.cache_size ∧
    (st.update_config c).concurrency_semaphore =
      st.concurrency_semaphore ∧
    (cs.foldl DnsResolverState.update_config st2).resolver.cacheSize
      = k ∧
    (cs.foldl DnsResolverState.update_config st2).cache_size = k ∧
    (cs.foldl DnsResolverState.update_config st2).concurrency_semaphore
      = st.concurrency_semaphore := by
  have hst2 : st2.cache_size = k ∧ st2.resolver.cacheSize = k ∧
      st2.concurrency_semaphore = st.concurrency_semaphore := by
    unfold DnsResolverState.set_dns_cache_size at h
    split at h
    · simp_all
    · simp only [Except.ok.injEq] at h
      subst h
      simp
  have hf := foldl_update_config_frame k cs st2 hst2.1 hst2.2.1
  exact ⟨rfl, rfl, rfl, hf.2.1, hf.1, by rw [hf.2.2, hst2.2.2]⟩

/-- Witness for C8: set-cache-size(8192) on the default state followed
by the google and cloudflare presets leaves the effective cache
capacity at 8192. -/
theorem C8_preset_preserves_cache_size_witness :
    (([ResolverConfig.google, ResolverConfig.cloudflare].foldl
      DnsResolverState.update_config
      { resolver := { config := ResolverConfig.systemDefault,
                      cacheSize := 8192 }
        concurrency_semaphore := { id := 0, permits := 50 }
        cache_size := 8192
        nextId := 1 }).resolver.cacheSize = 8192) :=
  (C8_preset_preserves_cache_size DnsResolverState.mkDefault
    { resolver := { config := ResolverConfig.systemDefault,
                    cacheSize := 8192 }
      concurrency_semaphore := { id := 0, permits := 50 }
      cache_size := 8192
      nextId := 1 }
    ResolverConfig.google 8192
    [ResolverConfig.google, ResolverConfig.cloudflare]
    (by decide)).2.2.2.1

theorem corey_func_length (bd : CoreyBindData) (offset : Nat) :
    (Corey.func bd offset).1.length =
      min (bd.txt_records.length - offset) 2048 := by
  unfold Corey.func
  split
  · simp_all
  · simp only [List.length_take, List.length_drop]
    omega

theorem corey_runChunks_drop (bd : CoreyBindData) (fuel : Nat) :
    ∀ offset, bd.txt_records.length - offset ≤ 2048 * fuel →
      Corey.runChunks bd offset fuel = bd.txt_records.drop offset := by
  induction fuel with
  | zero =>
    intro offset h
    have hle : bd.txt_records.length ≤ offset := by omega
    simp [Corey.runChunks, List.drop_eq_nil_of_le hle]
  | succ fuel ih =>
    intro offset h
    unfold Corey.runChunks
    by_cases h0 : bd.txt_records.length - offset = 0
    · have hle : bd.txt_records.length ≤ offset := by omega
      simp [Corey.func, h0, List.drop_eq_nil_of_le hle]
    · have hlen := corey_func_length bd offset
      have hne : (Corey.func bd offset).1 ≠ [] := by
        apply List.ne_nil_of_length_pos
        omega
      rw [if_neg hne]
      have hsnd : (Corey.func bd offset).2 =
          offset + min (bd.txt_records.length - offset) 2048 := by
        unfold Corey.func
        rw [if_neg h0]
      have hfst : (Corey.func bd offset).1 =
          (bd.txt_records.drop offset).take
            (min (bd.txt_records.length - offset) 2048) := by
        unfold Corey.func
        rw [if_neg h0]
      rw [ih ((Corey.func bd offset).2) (by rw [hsnd]; omega), hfst,
        hsnd]
      calc (bd.txt_records.drop offset).take
            (min (bd.txt_records.length - offset) 2048) ++
          bd.txt_records.drop
            (offset + min (bd.txt_records.length - offset) 2048)
          = (bd.txt_records.drop offset).take
              (min (bd.txt_records.length - offset) 2048) ++
            (bd.txt_records.drop offset).drop
              (min (bd.txt_records.length - offset) 2048) := by
            rw [List.drop_drop]
        _ = bd.txt_records.drop offset := List.take_append_drop _ _

/-- Claim C9: corey resolves the TXT records once, eagerly at bind
time; each subsequent output call emits min(remaining, 2048) records, a
call after exhaustion emits zero rows, and iterating the calls from
offset 0 reproduces exactly the list fetched at bind. -/
theorem C9_corey_paging (world : ResolverWorld) (g : DnsResolverState)
    (hostname : String) (bd : CoreyBindData) :
    (Corey.bind world g hostname = .ok bd →
      (world DnsResolverState.mkDefault.resolver).lookup
        (strTrim hostname) RecordType.TXT = some bd.txt_records) ∧
    (∀ offset, (Corey.func bd offset).1.length =
      min (bd.txt_records.length - offset) 2048) ∧
    (∀ offset, bd.txt_records.length ≤ offset →
      Corey.func bd offset = ([], offset)) ∧
    (∀ fuel, bd.txt_records.length ≤ 2048 * fuel →
      Corey.runChunks bd 0 fuel = bd.txt_records) := by
  refine ⟨?_, corey_func_length bd, ?_, ?_⟩
  · intro hb
    unfold Corey.bind at hb
    split at hb
    · simp only [Except.ok.injEq] at hb
      subst hb
      simp_all
    · simp_all
  · intro offset hle
    unfold Corey.func
    rw [if_pos (by omega)]
  · intro fuel hfuel
    have := corey_runChunks_drop bd fuel 0 (by omega)
    simpa using this

/-- Witness for C9: with three TXT records and fuel 2, the chunks
reassemble the bind-time list; at offset 3 the call emits zero rows;
the bind stored exactly the records the single bind-time TXT lookup
returned. -/
theorem C9_corey_paging_witness :
    Corey.runChunks txtBindData 0 2 = txtBindData.txt_records ∧
    Corey.func txtBindData 3 = ([], 3) ∧
    (txtWorld DnsResolverState.mkDefault.resolver).lookup
      (strTrim "example.com") RecordType.TXT =
        some txtBindData.txt_records :=
  ⟨(C9_corey_paging txtWorld DnsResolverState.mkDefault "example.com"
      txtBindData).2.2.2 2 (by decide),
   (C9_corey_paging txtWorld DnsResolverState.mkDefault "example.com"
      txtBindData).2.2.1 3 (by decide),
   (C9_corey_paging txtWorld DnsResolverState.mkDefault "example.com"
      txtBindData).1 (by rfl)⟩

/-- Claim C10: corey's bind constructs a brand-new resolver state with
the default configuration and default cache size (4096) and a default
50-permit semaphore it never consults — the bind result depends only on
the behaviour of a handle built from the default descriptor and on the
hostname, not on the process-wide hot-swap state, so preset, limit and
cache administrative calls cannot influence it, and its stored state is
exactly the fresh default. -/
theorem C10_corey_fresh_state (world world2 : ResolverWorld)
    (g g2 : DnsResolverState) (hostname : String)
    (hw : world DnsResolverState.mkDefault.resolver =
      world2 DnsResolverState.mkDefault.resolver) :
    Corey.bind world g hostname = Corey.bind world2 g2 hostname ∧
    (∀ bd, Corey.bind world g hostname = .ok bd →
      bd.resolver_state = DnsResolverState.mkDefault) ∧
    DnsResolverState.mkDefault.resolver =
      { config := ResolverConfig.systemDefault, cacheSize := 4096 } ∧
    DnsResolverState.mkDefault.concurrency_semaphore.permits = 50 := by
  refine ⟨?_, ?_, rfl, rfl⟩
  · unfold Corey.bind
    rw [hw]
  · intro bd hb
    unfold Corey.bind at hb
    split at hb
    · simp only [Except.ok.injEq] at hb
      subst hb
      rfl
    · simp_all

/-- Witness for C10: an administrative preset change on the global
state does not change corey's bind result. -/
theorem C10_corey_fresh_state_witness :
    Corey.bind txtWorld DnsResolverState.mkDefault "example.com" =
      Corey.bind txtWorld
        (DnsResolverState.mkDefault.update_config ResolverConfig.google)
        "example.com" :=
  (C10_corey_fresh_state txtWorld txtWorld DnsResolverState.mkDefault
    (DnsResolverState.mkDefault.update_config ResolverConfig.google)
    "example.com" rfl).1

theorem reverseInvoke_getElem_none (env : BatchEnv)
    (rows : List (Option String)) (i : Nat)
    (hi : ¬ i < rows.length) :
    (ReverseDnsLookup.invoke env rows).1[i]? = none := by
  simp [ReverseDnsLookup.invoke, List.getElem?_map, List.getElem?_range,
    hi]
  omega

/-- Claim C3: every lookup operation returns exactly one output per
input row, output i is the per-row task applied to input i (positional
correspondence), and a null input row yields a null output with an
empty effect trace — no permit acquisition and no resolver contact. -/
theorem C3_batch_shape_and_nulls (env : BatchEnv)
    (rows : List (Option String))
    (record_types : Option (List (Option String))) :
    ((ReverseDnsLookup.invoke env rows).1.length = rows.length ∧
     (DnsLookup.invoke env rows record_types).1.length = rows.length ∧
     (DnsLookupAll.invoke env rows record_types).1.length =
       rows.length) ∧
    (∀ i, i < rows.length →
      (ReverseDnsLookup.invoke env rows).1[i]? =
        some (reverseTask (env.resolverAt i) (env.semAt 0)
          (rows.getD i none)).1 ∧
      (DnsLookup.invoke env rows record_types).1[i]? =
        some (dnsTask (env.resolverAt i) (env.semAt 0)
          (rows.getD i none) (recordTypeAt record_types i)).1 ∧
      (DnsLookupAll.invoke env rows record_types).1[i]? =
        some (dnsAllTask (env.resolverAt i) (env.semAt 0)
          (rows.getD i none) (recordTypeAt record_types i)).1) ∧
    (∀ i, i < rows.length → rows.getD i none = none →
      (ReverseDnsLookup.invoke env rows).1[i]? = some none ∧
      (ReverseDnsLookup.invoke env rows).2[i]? =
        some { permitsAcquired := [], resolverCalls := 0 } ∧
      (DnsLookup.invoke env rows record_types).1[i]? = some none ∧
      (DnsLookup.invoke env rows record_types).2[i]? =
        some { permitsAcquired := [], resolverCalls := 0 } ∧
      (DnsLookupAll.invoke env rows record_types).1[i]? = some none ∧
      (DnsLookupAll.invoke env rows record_types).2[i]? =
        some { permitsAcquired := [], resolverCalls := 0 }) := by
  refine ⟨⟨?_, ?_, ?_⟩, ?_, ?_⟩
  · simp [ReverseDnsLookup.invoke]
  · simp [DnsLookup.invoke]
  · simp [DnsLookupAll.invoke]
  · intro i hi
    exact ⟨reverseInvoke_getElem env rows i hi,
      dnsInvoke_getElem env rows record_types i hi,
      dnsAllInvoke_getElem env rows record_types i hi⟩
  · intro i hi hnull
    refine ⟨?_, ?_, ?_, ?_, ?_, ?_⟩
    · rw [reverseInvoke_getElem env rows i hi, hnull]
      simp [reverseTask]
    · rw [reverseInvoke_getElem_trace env rows i hi, hnull]
      simp [reverseTask]
    · rw [dnsInvoke_getElem env rows record_types i hi, hnull]
      simp [dnsTask]
    · rw [dnsInvoke_getElem_trace env rows record_types i hi, hnull]
      simp [dnsTask]
    · rw [dnsAllInvoke_getElem env rows record_types i hi, hnull]
      simp [dnsAllTask]
    · rw [dnsAllInvoke_getElem_trace env rows record_types i hi, hnull]
      simp [dnsAllTask]

/-- Witness for C3: a two-row batch with a null first row — null
output, empty trace at position 0, and length 2. -/
theorem C3_batch_shape_and_nulls_witness :
    (ReverseDnsLookup.invoke envStable [none, some "8.8.8.8"]).1.length
      = 2 ∧
    (ReverseDnsLookup.invoke envStable
      [none, some "8.8.8.8"]).1[0]? = some none ∧
    (ReverseDnsLookup.invoke envStable
      [none, some "8.8.8.8"]).2[0]? =
      some { permitsAcquired := [], resolverCalls := 0 } := by
  have h := C3_batch_shape_and_nulls envStable [none, some "8.8.8.8"]
    none
  have h0 := h.2.2 0 (by decide) (by decide)
  exact ⟨h.1.1, h0.1, h0.2.1⟩

theorem reverse_async_invalid (r : Resolver) (s : String)
    (hv : (validate_ipv4 s).isOk = false) :
    (reverse_dns_lookup_async r s).toOption = none := by
  cases h : validate_ipv4 s with
  | ok ip => rw [h] at hv; simp [Except.isOk, Except.toBool] at hv
  | error e => simp [reverse_dns_lookup_async, h, Except.toOption]

theorem forwardRowLookup_badtype (r : Resolver) (hst rts : String)
    (hp : (parse_record_type rts).isOk = false) :
    (forwardRowLookup r hst (some rts)).toOption = none := by
  cases h : parse_record_type rts with
  | ok t => rw [h] at hp; simp [Except.isOk, Except.toBool] at hp
  | error e => simp [forwardRowLookup, h, Except.toOption]

/-- Claim C4: every per-row lookup-path failure — invalid IPv4 syntax,
unsupported record-type text, an empty answer set, or a resolver
error — produces a null value for exactly that row, and changing one
row never affects any other row's output: no failure aborts the batch
or surfaces an error value. -/
theorem C4_row_failures_degrade_to_null :
    (∀ (env : BatchEnv) (rows : List (Option String)) (i : Nat)
      (s : String), i < rows.length → rows.getD i none = some s →
      (validate_ipv4 s).isOk = false →
      (ReverseDnsLookup.invoke env rows).1[i]? = some none) ∧
    (∀ (env : BatchEnv) (rows : List (Option String))
      (record_types : Option (List (Option String))) (i : Nat)
      (hs rts : String), i < rows.length →
      rows.getD i none = some hs →
      recordTypeAt record_types i = some rts →
      (parse_record_type rts).isOk = false →
      (DnsLookup.invoke env rows record_types).1[i]? = some none) ∧
    (∀ (env : BatchEnv) (rows : List (Option String)) (i : Nat)
      (s : String) (ip : Ipv4), i < rows.length →
      rows.getD i none = some s → validate_ipv4 s = .ok ip →
      (env.resolverAt i).reverseLookup ip = some [] →
      (ReverseDnsLookup.invoke env rows).1[i]? = some none) ∧
    (∀ (env : BatchEnv) (rows : List (Option String)) (i : Nat)
      (s : String) (ip : Ipv4), i < rows.length →
      rows.getD i none = some s → validate_ipv4 s = .ok ip →
      (env.resolverAt i).reverseLookup ip = none →
      (ReverseDnsLookup.invoke env rows).1[i]? = some none) ∧
    (∀ (env : BatchEnv) (rows : List (Option String)) (i j : Nat)
      (x : Option String), j ≠ i →
      (ReverseDnsLookup.invoke env (rows.set i x)).1[j]? =
        (ReverseDnsLookup.invoke env rows).1[j]?) := by
  refine ⟨?_, ?_, ?_, ?_, ?_⟩
  · intro env rows i s hi hrow hv
    rw [reverseInvoke_getElem env rows i hi, hrow]
    simp [reverseTask, reverse_async_invalid (env.resolverAt i) s hv]
  · intro env rows record_types i hs rts hi hrow hrt hp
    rw [dnsInvoke_getElem env rows record_types i hi, hrow, hrt]
    simp [dnsTask,
      forwardRowLookup_badtype (env.resolverAt i) hs rts hp]
  · intro env rows i s ip hi hrow hv hl
    rw [reverseInvoke_getElem env rows i hi, hrow]
    simp [reverseTask, reverse_dns_lookup_async, hv, hl,
      Except.toOption]
  · intro env rows i s ip hi hrow hv hl
    rw [reverseInvoke_getElem env rows i hi, hrow]
    simp [reverseTask, reverse_dns_lookup_async, hv, hl,
      Except.toOption]
  · intro env rows i j x hj
    by_cases hjl : j < rows.length
    · rw [reverseInvoke_getElem env rows j hjl,
        reverseInvoke_getElem env (rows.set i x) j
          (by rw [List.length_set]; exact hjl)]
      rw [List.getD_eq_getElem?_getD, List.getD_eq_getElem?_getD,
        List.getElem?_set_ne (Ne.symm hj)]
    · rw [reverseInvoke_getElem_none env rows j hjl,
        reverseInvoke_getElem_none env (rows.set i x) j
          (by rw [List.length_set]; exact hjl)]

/-- Witness for C4: in a two-row batch, the malformed address
"not-an-ip" in row 0 yields null there while row 1 still resolves, and
overwriting row 0 does not change row 1. -/
theorem C4_row_failures_degrade_to_null_witness :
    (ReverseDnsLookup.invoke envStable
      [some "not-an-ip", some "1.1.1.1"]).1[0]? = some none ∧
    (ReverseDnsLookup.invoke envStable
      ([some "bad", some "1.1.1.1"].set 0 (some "worse"))).1[1]? =
      (ReverseDnsLookup.invoke envStable
        [some "bad", some "1.1.1.1"]).1[1]? :=
  ⟨C4_row_failures_degrade_to_null.1 envStable
      [some "not-an-ip", some "1.1.1.1"] 0 "not-an-ip" (by decide)
      (by decide) (by decide),
   C4_row_failures_degrade_to_null.2.2.2.2 envStable
      [some "bad", some "1.1.1.1"] 0 1 (some "worse") (by decide)⟩

/-- Counterexample to claim C1 as stated: two ArcSwap histories that
agree on everything current when the batch starts — same semaphore
history, same resolver at the batch-start load — and differ only in
the resolver value published before row 1's task performs its own
load.  If both the ResolverHandle and the AdmissionController were
snapshotted once before any lookup was launched, the two batch outputs
would be equal; they differ, because the source passes the `ArcSwap`
cell into each task and every lookup calls `resolver.load()` itself
(lib.rs:184), so a lookup CAN observe a resolver published by an
administrative swap that occurs mid-batch. -/
theorem C1_snapshot_counterexample :
    (∀ t, envStable.semAt t = envSwapped.semAt t) ∧
    envStable.resolverAt 0 = envSwapped.resolverAt 0 ∧
    (ReverseDnsLookup.invoke envStable twoRows).1 ≠
      (ReverseDnsLookup.invoke envSwapped twoRows).1 := by
  refine ⟨fun t => rfl, rfl, ?_⟩
  decide

/-- Claim C1 amended: only the AdmissionController is snapshotted once
before any lookup is launched — the batch result is invariant under
changes to the semaphore cell after its single load at batch start,
and every permit acquired in the batch comes from that snapshot — while
the ResolverHandle is NOT snapshotted: each row's lookup uses the
resolver loaded when that task runs (`resolverAt i`), so the batch
depends on the per-row resolver history rather than on the batch-start
resolver alone. -/
theorem C1_semaphore_snapshot_resolver_per_lookup (env env2 : BatchEnv)
    (rows : List (Option String))
    (record_types : Option (List (Option String)))
    (hres : ∀ i, i < rows.length →
      env.resolverAt i = env2.resolverAt i)
    (hsem : env.semAt 0 = env2.semAt 0) :
    ReverseDnsLookup.invoke env rows =
      ReverseDnsLookup.invoke env2 rows ∧
    DnsLookup.invoke env rows record_types =
      DnsLookup.invoke env2 rows record_types ∧
    DnsLookupAll.invoke env rows record_types =
      DnsLookupAll.invoke env2 rows record_types ∧
    (∀ t ∈ (ReverseDnsLookup.invoke env rows).2,
      ∀ s ∈ t.permitsAcquired, s = env.semAt 0) ∧
    (∀ t ∈ (DnsLookup.invoke env rows record_types).2,
      ∀ s ∈ t.permitsAcquired, s = env.semAt 0) ∧
    (∀ t ∈ (DnsLookupAll.invoke env rows record_types).2,
      ∀ s ∈ t.permitsAcquired, s = env.semAt 0) := by
  have h1 : (List.range rows.length).map
      (fun i => reverseTask (env.resolverAt i) (env.semAt 0)
        (rows.getD i none)) =
      (List.range rows.length).map
      (fun i => reverseTask (env2.resolverAt i) (env2.semAt 0)
        (rows.getD i none)) := by
    apply List.map_congr_left
    intro a ha
    rw [hres a (List.mem_range.mp ha), hsem]
  have h2 : (List.range rows.length).map
      (fun i => dnsTask (env.resolverAt i) (env.semAt 0)
        (rows.getD i none) (recordTypeAt record_types i)) =
      (List.range rows.length).map
      (fun i => dnsTask (env2.resolverAt i) (env2.semAt 0)
        (rows.getD i none) (recordTypeAt record_types i)) := by
    apply List.map_congr_left
    intro a ha
    rw [hres a (List.mem_range.mp ha), hsem]
  have h3 : (List.range rows.length).map
      (fun i => dnsAllTask (env.resolverAt i) (env.semAt 0)
        (rows.getD i none) (recordTypeAt record_types i)) =
      (List.range rows.length).map
      (fun i => dnsAllTask (env2.resolverAt i) (env2.semAt 0)
        (rows.getD i none) (recordTypeAt record_types i)) := by
    apply List.map_congr_left
    intro a ha
    rw [hres a (List.mem_range.mp ha), hsem]
  refine ⟨?_, ?_, ?_, ?_, ?_, ?_⟩
  · unfold ReverseDnsLookup.invoke
    rw [h1]
  · unfold DnsLookup.invoke
    rw [h2]
  · unfold DnsLookupAll.invoke
    rw [h3]
  · intro t ht s hs
    simp only [ReverseDnsLookup.invoke, List.mem_map,
      List.mem_range] at ht
    obtain ⟨p, ⟨i, hi, rfl⟩, rfl⟩ := ht
    cases hrow : rows.getD i none with
    | none =>
      simp only [reverseTask, hrow] at hs
      exact absurd hs (List.not_mem_nil s)
    | some v =>
      simp only [reverseTask, hrow, List.mem_singleton] at hs
      exact hs
  · intro t ht s hs
    simp only [DnsLookup.invoke, List.mem_map, List.mem_range] at ht
    obtain ⟨p, ⟨i, hi, rfl⟩, rfl⟩ := ht
    cases hrow : rows.getD i none with
    | none =>
      simp only [dnsTask, hrow] at hs
      exact absurd hs (List.not_mem_nil s)
    | some v =>
      simp only [dnsTask, hrow, List.mem_singleton] at hs
      exact hs
  · intro t ht s hs
    simp only [DnsLookupAll.invoke, List.mem_map, List.mem_range] at ht
    obtain ⟨p, ⟨i, hi, rfl⟩, rfl⟩ := ht
    cases hrow : rows.getD i none with
    | none =>
      simp only [dnsAllTask, hrow] at hs
      exact absurd hs (List.not_mem_nil s)
    | some v =>
      simp only [dnsAllTask, hrow, List.mem_singleton] at hs
      exact hs

/-- Witness for the amended C1: publishing a different semaphore after
the batch-start load leaves the batch output unchanged. -/
theorem C1_semaphore_snapshot_witness :
    ReverseDnsLookup.invoke envStable twoRows =
      ReverseDnsLookup.invoke envSemSwapped twoRows :=
  (C1_semaphore_snapshot_resolver_per_lookup envStable envSemSwapped
    twoRows none (fun i hi => rfl) rfl).1
